import Mathlib

/-!
Shallow embedding of the shift-eligibility and scoring core of the
priory-smartshift repository.

Sources embedded here:
  * `src/services/shiftRules.js` — time-range normalisation, shift
    classification, overlap, weekly-hours / rest / consecutive-days /
    night-cap constraint predicates.
  * `src/services/shiftAutomation.js` — `estimateShiftHours`,
    `scoreStaffForShift` and the ranking entry point
    `getBestStaffForShift`.

Modelling conventions:
  * An instant is an integer number of minutes since an arbitrary epoch
    (JavaScript Date values at minute granularity).  Calendar days are
    1440-minute blocks; `i / 1440` (Euclidean division, which is floor
    division for a positive divisor) is the calendar-day number of an
    instant, and `i % 1440` is its minute-of-day, matching the local
    calendar arithmetic of `Date.setHours` / `setDate` / `getHours`.
  * A shift date string is modelled as `Option Int`: `none` is a
    missing or unparseable date (`new Date(...)` gave `NaN`), and
    `some base` is the parsed instant (a date string may carry a
    time-of-day, so `base` need not be midnight).
  * A time-of-day string is modelled as `Option (Nat × Nat)`: `none` is
    a missing (falsy) time string, and `some (h, m)` the parsed pair of
    components of a canonical zero-padded 24-hour "HH:MM" string, so
    that `parseInt(str.slice(0, 2))` is `h`, splitting on the colon
    gives `h` and `m`, and textual comparison of two such strings
    agrees with comparison of `h * 60 + m`.
  * `end.getDate() !== start.getDate()` in `isNightShift` compares
    days-of-month; for the ranges produced by `getShiftRange`, whose
    endpoints are at most a couple of days apart, this is equivalent to
    comparing calendar-day numbers, which is how it is modelled.
  * Database access and the WhatsApp layer are out of scope: the core
    functions are modelled on the plain records they receive.
-/

/-- A shift (or commitment) record as consumed by the rule helpers:
`shift_date`, `start_time`, `end_time` and (for scoring) `ward`. -/
structure Shift where
  shift_date : Option Int
  start_time : Option (Nat × Nat)
  end_time : Option (Nat × Nat)
  ward : Option String
deriving DecidableEq, Repr

/-- Calendar-day number of an instant (floor division by 1440 minutes). -/
def dayNumber (i : Int) : Int := i / 1440

/-- Minute-of-day of an instant, in `[0, 1440)`. -/
def minuteOfDay (i : Int) : Int := i % 1440

/-- Embedding of `toDateTime(dateStr, timeStr)` from shiftRules.js: given a
parsed date value and a parsed time, returns the instant on the date value
calendar day at that time-of-day (`setHours`), the date value itself when the
time is missing, and `none` when the date is missing or unparseable. -/
def toDateTime (dateStr : Option Int) (timeStr : Option (Nat × Nat)) : Option Int :=
  match dateStr with
  | none => none
  | some base =>
    match timeStr with
    | none => some base
    | some (h, m) => some (dayNumber base * 1440 + ((h : Int) * 60 + (m : Int)))

/-- Embedding of `getShiftRange(shift)` from shiftRules.js: the normalised
half-open `[start, end)` range of a shift; when the raw end is at or before
the start, the end is advanced by one calendar day (midnight crossing). -/
def getShiftRange (s : Shift) : Option Int × Option Int :=
  match toDateTime s.shift_date s.start_time, toDateTime s.shift_date s.end_time with
  | some start, some endRaw =>
    if endRaw ≤ start then (some start, some (endRaw + 1440)) else (some start, some endRaw)
  | _, _ => (none, none)

/-- Embedding of `getShiftDurationHours(shift)` from shiftRules.js: length of
the normalised range in (possibly fractional) hours, `0` when the range is
missing or non-positive. -/
def getShiftDurationHours (s : Shift) : ℚ :=
  match getShiftRange s with
  | (some start, some e) =>
    if e ≤ start then 0 else ((e - start : Int) : ℚ) / 60
  | _ => 0

/-- Embedding of `isNightShift(shift)` from shiftRules.js: true when the
normalised range crosses a calendar-day boundary, or starts before 06:00, or
starts at or after 20:00; false when the range is missing. -/
def isNightShift (s : Shift) : Bool :=
  match getShiftRange s with
  | (some start, some e) =>
    if dayNumber e ≠ dayNumber start then true
    else
      let startHour := minuteOfDay start / 60
      if startHour < 6 then true
      else if 20 ≤ startHour then true
      else false
  | _ => false

/-- Embedding of `getShiftType(shift)` from shiftRules.js: "night" when
`isNightShift`, else "day" when the start hour is at least 6 and the end hour
at most 22, else "unknown" (also when the range is missing). -/
def getShiftType (s : Shift) : String :=
  if isNightShift s then "night"
  else
    match getShiftRange s with
    | (some start, some e) =>
      let startHour := minuteOfDay start / 60
      let endHour := minuteOfDay e / 60
      if 6 ≤ startHour ∧ endHour ≤ 22 then "day" else "unknown"
    | _ => "unknown"

/-- Embedding of `shiftsOverlap(shiftA, shiftB)` from shiftRules.js: two
shifts overlap when both normalised ranges exist, both have positive length,
and each starts before the other ends. -/
def shiftsOverlap (a b : Shift) : Bool :=
  match getShiftRange a, getShiftRange b with
  | (some startA, some endA), (some startB, some endB) =>
    if endA ≤ startA ∨ endB ≤ startB then false
    else decide (startA < endB ∧ startB < endA)
  | _, _ => false

/-- Embedding of `calculateTotalHoursInWindow(assignments, windowStart,
windowEnd)` from shiftRules.js: sum of the durations of the assignments whose
normalised start instant lies in the inclusive window. -/
def calculateTotalHoursInWindow (assignments : List Shift)
    (windowStart windowEnd : Int) : ℚ :=
  assignments.foldl (fun acc a =>
    match (getShiftRange a).1 with
    | some s =>
      if windowStart ≤ s ∧ s ≤ windowEnd then acc + getShiftDurationHours a else acc
    | none => acc) 0

/-- Result of `checkWeeklyHoursLimit`.  The `legalWarning` and `reason`
strings of the source are modelled by presence flags. -/
structure WeeklyHoursResult where
  ok : Bool
  totalHoursWithNew : ℚ
  legalWarning : Bool
  breachedHardCap : Bool
deriving DecidableEq, Repr

/-- Embedding of `checkWeeklyHoursLimit(assignments, newShift, options)` from
shiftRules.js.  The window is the inclusive instant interval from six
calendar days before the start of the new shift (same time-of-day, via
`setDate(getDate() - 6)`) up to that start.  Defaults in the source are a
48-hour soft threshold and a 72-hour hard cap; a missing start skips the
check with `ok = true`. -/
def checkWeeklyHoursLimit (assignments : List Shift) (newShift : Shift)
    (softThreshold hardCap : ℚ) : WeeklyHoursResult :=
  match (getShiftRange newShift).1 with
  | none =>
    { ok := true, totalHoursWithNew := 0, legalWarning := false, breachedHardCap := false }
  | some newStart =>
    let windowEnd := newStart
    let windowStart := newStart - 6 * 1440
    let existingHours := calculateTotalHoursInWindow assignments windowStart windowEnd
    let newHours := getShiftDurationHours newShift
    let total := existingHours + newHours
    if total > hardCap then
      { ok := false, totalHoursWithNew := total, legalWarning := false, breachedHardCap := true }
    else if total > softThreshold then
      { ok := true, totalHoursWithNew := total, legalWarning := true, breachedHardCap := false }
    else
      { ok := true, totalHoursWithNew := total, legalWarning := false, breachedHardCap := false }

/-- Result of `checkNightShiftLimit`. -/
structure NightLimitResult where
  ok : Bool
  totalNightsWithNew : Nat
deriving DecidableEq, Repr

/-- Embedding of `checkNightShiftLimit(assignments, newShift, maxNights,
windowDays)` from shiftRules.js (defaults `maxNights = 4`,
`windowDays = 14`).  Only night-classified new shifts are checked; the window
is the inclusive instant interval of the last `windowDays` days ending at the
new start. -/
def checkNightShiftLimit (assignments : List Shift) (newShift : Shift)
    (maxNights windowDays : Nat) : NightLimitResult :=
  match (getShiftRange newShift).1 with
  | none => { ok := true, totalNightsWithNew := 0 }
  | some newStart =>
    if ¬ isNightShift newShift then { ok := true, totalNightsWithNew := 0 }
    else
      let windowEnd := newStart
      let windowStart := newStart - ((windowDays : Int) - 1) * 1440
      let nightCount := (assignments.filter (fun a =>
        match (getShiftRange a).1 with
        | some s => decide (windowStart ≤ s ∧ s ≤ windowEnd) && isNightShift a
        | none => false)).length
      let totalWithNew := nightCount + 1
      if totalWithNew > maxNights then { ok := false, totalNightsWithNew := totalWithNew }
      else { ok := true, totalNightsWithNew := totalWithNew }

/-- Verdict carrying only the `ok` flag (reason strings are not modelled). -/
structure CheckResult where
  ok : Bool
deriving DecidableEq, Repr

/-- Embedding of `checkDoubleBooking(assignments, newShift)` from
shiftRules.js: fails exactly when some existing assignment overlaps the new
shift. -/
def checkDoubleBooking (assignments : List Shift) (newShift : Shift) : CheckResult :=
  if assignments.any (fun a => shiftsOverlap a newShift) then { ok := false }
  else { ok := true }

/-- Embedding of `checkRestPeriod(assignments, newShift, minRestHours)` from
shiftRules.js (default `minRestHours = 11`): fails exactly when some
assignment with a valid positive-length range ends strictly before the new
start with a gap of fewer than `minRestHours` hours; a missing new start
skips the check. -/
def checkRestPeriod (assignments : List Shift) (newShift : Shift)
    (minRestHours : ℚ) : CheckResult :=
  match (getShiftRange newShift).1 with
  | none => { ok := true }
  | some newStart =>
    if assignments.any (fun a =>
        match getShiftRange a with
        | (some prevStart, some prevEnd) =>
          if prevEnd ≤ prevStart then false
          else
            decide (0 < ((newStart - prevEnd : Int) : ℚ) / 60
              ∧ ((newStart - prevEnd : Int) : ℚ) / 60 < minRestHours)
        | _ => false) then { ok := false }
    else { ok := true }

/-- Calendar-day key of an instant, embedding `toDateKey` of shiftRules.js
(the local `YYYY-MM-DD` string is in bijection with the day number). -/
def toDateKey (i : Int) : Int := dayNumber i

/-- Day keys of the valid normalised starts of a list of assignments, as
collected into `workedDays` by `checkConsecutiveDaysLimit`. -/
def workedDayKeys (assignments : List Shift) : List Int :=
  (assignments.filterMap (fun a => (getShiftRange a).1)).map toDateKey

/-- Fuel-bounded embedding of the backward-walking `while` loop of
`checkConsecutiveDaysLimit`: starting at day `d`, count how many consecutive
days (walking backward) are present in `days`.  The walked days are pairwise
distinct members of `days`, so with fuel exceeding the length of `days` the
fuel never runs out before a missing day is reached, and the function agrees
with the unbounded loop of the source. -/
def streakAux (days : List Int) (d : Int) : Nat → Nat
  | 0 => 0
  | fuel + 1 => if d ∈ days then streakAux days (d - 1) fuel + 1 else 0

/-- Result of `checkConsecutiveDaysLimit`; `streak` is `0` when the check is
skipped for a missing start. -/
structure ConsecutiveResult where
  ok : Bool
  streak : Nat
deriving DecidableEq, Repr

/-- Embedding of `checkConsecutiveDaysLimit(assignments, newShift, maxDays)`
from shiftRules.js (default `maxDays = 6`): build the day keys of the
assignments plus the new shift day, walk backward from the new day
while days are present, and fail exactly when the streak exceeds
`maxDays`. -/
def checkConsecutiveDaysLimit (assignments : List Shift) (newShift : Shift)
    (maxDays : Nat) : ConsecutiveResult :=
  match (getShiftRange newShift).1 with
  | none => { ok := true, streak := 0 }
  | some newStart =>
    let workedDays := workedDayKeys assignments ++ [toDateKey newStart]
    let streak := streakAux workedDays (toDateKey newStart) (workedDays.length + 1)
    if streak > maxDays then { ok := false, streak := streak }
    else { ok := true, streak := streak }

/-- A staff row as consumed by `scoreStaffForShift` in shiftAutomation.js.
`ward` and `preferred_shift` are `none` when null or empty;
`contracted_hours_per_week` is `none` when null (the source treats `0` as
falsy too, handled in the fairness step). -/
structure Staff where
  id : Nat
  staff_type : String
  ward : Option String
  preferred_shift : Option String
  contracted_hours_per_week : Option ℚ
  mandatory_training_complete : Bool
  wellbeing_score : Int
deriving DecidableEq, Repr

/-- ASCII lowercasing, embedding `String.prototype.toLowerCase` on the ward
and preference strings of the source. -/
def toLower (s : String) : String := String.mk (s.data.map Char.toLower)

/-- Embedding of `estimateShiftHours(shift)` from shiftAutomation.js: when
either time string is missing the function falls back to 12 hours; otherwise
the minute difference of the two times, shifted by 24 hours when
non-positive (cross-midnight), divided by 60. -/
def estimateShiftHours (shift : Shift) : ℚ :=
  match shift.start_time, shift.end_time with
  | some (sh, sm), some (eh, em) =>
    let startMinutes : Int := (sh : Int) * 60 + (sm : Int)
    let endMinutes : Int := (eh : Int) * 60 + (em : Int)
    let diffMinutes := endMinutes - startMinutes
    let diffMinutes := if diffMinutes ≤ 0 then diffMinutes + 24 * 60 else diffMinutes
    (diffMinutes : ℚ) / 60
  | _, _ => 12

/-- Embedding of the `shiftLabel` binding inside `scoreStaffForShift`:
"night" exactly when a start time is present and the parsed value of its
first two characters (the hour of a canonical "HH:MM" string) is at least
18, else "day". -/
def shiftLabel (shift : Shift) : String :=
  match shift.start_time with
  | some (h, _) => if 18 ≤ h then "night" else "day"
  | none => "day"

/-- Step 2 of `scoreStaffForShift`: staff-type priority points. -/
def tierScore (staff : Staff) : Int :=
  if staff.staff_type = "permanent" then 40
  else if staff.staff_type = "bank" then 20
  else if staff.staff_type = "agency" then 5
  else 0

/-- Step 3 of `scoreStaffForShift`: home-ward familiarity points
(case-insensitive match +30, known but different home ward +5, unknown home
ward +0). -/
def wardScore (staff : Staff) (shift : Shift) : Int :=
  match staff.ward, shift.ward with
  | some sw, some shw => if toLower sw = toLower shw then 30 else 5
  | some _, none => 5
  | none, _ => 0

/-- Step 4 of `scoreStaffForShift`: shift-preference points against
`shiftLabel`, with the preference defaulting to "Day" when absent. -/
def prefScore (staff : Staff) (shift : Shift) : Int :=
  let pref := toLower (staff.preferred_shift.getD "Day")
  if pref = "any" then 10
  else if pref = shiftLabel shift then 15
  else -5

/-- Step 5 of `scoreStaffForShift`: contract-hours fairness points.  For
permanent staff the projected utilisation against contracted hours
(defaulting to 37.5 when null or zero) is banded at 0.5 and 1.0; for other
staff low/high absolute weekly hours are banded at 24 and 48. -/
def fairnessScore (staff : Staff) (weeklyHours shiftHours : ℚ) : Int :=
  if staff.staff_type = "permanent" then
    let contractHours : ℚ :=
      match staff.contracted_hours_per_week with
      | some c => if c = 0 then 75 / 2 else c
      | none => 75 / 2
    let utilisation := (weeklyHours + shiftHours) / contractHours
    if utilisation < 1 / 2 then 35
    else if utilisation ≤ 1 then 20
    else -10
  else
    if weeklyHours < 24 then 10
    else if weeklyHours > 48 then -10
    else 0

/-- Step 6 of `scoreStaffForShift`: wellbeing adjustment points. -/
def wellbeingAdjust (staff : Staff) : Int :=
  if staff.wellbeing_score ≤ 0 then 0
  else if staff.wellbeing_score < 30 then -5
  else if staff.wellbeing_score > 70 then 5
  else 0

/-- Outcome of `scoreStaffForShift` (the ordered reason strings are not
modelled). -/
structure ScoreOutcome where
  score : Int
  eligible : Bool
deriving DecidableEq, Repr

/-- Embedding of `scoreStaffForShift(staff, shift, weeklyHoursMap,
weeklyDaysMap)` from shiftAutomation.js.  Map lookups default to `0` as in
`map[id] || 0`.  Eligibility requires completed mandatory training, fewer
than 6 days already worked this week, and fewer than 60 weekly hours; the
score is the sum of the five step scores. -/
def scoreStaffForShift (staff : Staff) (shift : Shift)
    (weeklyHoursMap : List (Nat × ℚ)) (weeklyDaysMap : List (Nat × Nat)) : ScoreOutcome :=
  let shiftHours := estimateShiftHours shift
  let weeklyHours := (weeklyHoursMap.lookup staff.id).getD 0
  let weeklyDays := (weeklyDaysMap.lookup staff.id).getD 0
  let eligible := staff.mandatory_training_complete
    && decide (weeklyDays < 6) && decide (weeklyHours < 60)
  { score := tierScore staff + wardScore staff shift + prefScore staff shift
      + fairnessScore staff weeklyHours shiftHours + wellbeingAdjust staff,
    eligible := eligible }

/-- One entry of the ranked list produced by `getBestStaffForShift`. -/
structure RankedStaff where
  staff_id : Nat
  score : Int
  eligible : Bool
deriving DecidableEq, Repr

/-- Result of `getBestStaffForShift`. -/
structure RankingResult where
  topRecommendations : List RankedStaff
  allRanked : List RankedStaff
deriving DecidableEq, Repr

/-- Embedding of the ranking core of `getBestStaffForShift(shiftId,
organisationId, options)` from shiftAutomation.js, with the database loads
externalised: the loaded shift (`none` when the shift id was not found), the
loaded staff list, and the two weekly maps are parameters.  A missing shift
or an empty staff list raises (`Except.error`, embedding `throw new Error`);
otherwise every staff member is scored, the list is sorted by descending
score (stably, as `Array.prototype.sort`), and the eligible entries truncated
to the limit (default 5) form the top recommendations. -/
def getBestStaffForShift (shift : Option Shift) (staffList : List Staff)
    (weeklyHoursMap : List (Nat × ℚ)) (weeklyDaysMap : List (Nat × Nat))
    (limitOption : Option Nat) : Except String RankingResult :=
  let limit := match limitOption with
    | some l => if 0 < l then l else 5
    | none => 5
  match shift with
  | none => Except.error "Shift not found for organisation"
  | some sh =>
    if staffList.isEmpty then Except.error "No staff found for organisation"
    else
      let ranked := staffList.map (fun st =>
        let r := scoreStaffForShift st sh weeklyHoursMap weeklyDaysMap
        { staff_id := st.id, score := r.score, eligible := r.eligible : RankedStaff })
      let sorted := ranked.mergeSort (fun a b => decide (b.score ≤ a.score))
      Except.ok
        { topRecommendations := (sorted.filter (fun r => r.eligible)).take limit,
          allRanked := sorted }

/-- Rendering of the claimed shift-type preference rule in the words of the
amended claim C4, for comparison with the source-derived `prefScore`: the
label is "night" exactly when a start time is present with hour at least 18,
else "day". -/
def claimPrefLabel (shift : Shift) : String :=
  match shift.start_time with
  | some (h, _) => if 18 ≤ h then "night" else "day"
  | none => "day"

/-- Rendering of the claimed preference points in the words of claim C4: a
preference of "any" adds +10, a preference equal to the given label adds +15,
and any other case adds −5 (the stored preference defaults to "Day" and is
compared case-insensitively, as in the source). -/
def claimPrefPoints (preferred : Option String) (label : String) : Int :=
  if toLower (preferred.getD "Day") = "any" then 10
  else if toLower (preferred.getD "Day") = label then 15
  else -5

/-- Rendering of the weekly total in the words of claim C5: the summed hours
of the commitments whose start lies in the 7-day window of calendar dates
ending at the candidate shift start date (inclusive), plus the candidate
shift own duration. -/
def claimWeeklyTotalDateWindow (assignments : List Shift) (newShift : Shift) : ℚ :=
  match (getShiftRange newShift).1 with
  | none => getShiftDurationHours newShift
  | some newStart =>
    ((assignments.filter (fun a =>
      match (getShiftRange a).1 with
      | some s => decide (toDateKey newStart - 6 ≤ toDateKey s ∧ toDateKey s ≤ toDateKey newStart)
      | none => false)).map getShiftDurationHours).sum
    + getShiftDurationHours newShift

/-- Rendering of the weekly total in the words of the amended claim C5: the
summed hours of the commitments whose start instant lies in the inclusive
instant window from six calendar days before the candidate start (same
time-of-day) up to the candidate start, plus the candidate shift own
duration. -/
def claimWeeklyTotalInstantWindow (assignments : List Shift) (newShift : Shift)
    (newStart : Int) : ℚ :=
  ((assignments.filter (fun a =>
    match (getShiftRange a).1 with
    | some s => decide (newStart - 6 * 1440 ≤ s ∧ s ≤ newStart)
    | none => false)).map getShiftDurationHours).sum
  + getShiftDurationHours newShift

/-- The day shift of the §8 end-to-end scenario: ward "Alder",
07:30–19:30 on some fixed date (day 0). -/
def alderShift : Shift := ⟨some 0, some (7, 30), some (19, 30), some "Alder"⟩

/-- Candidate A of the §8 end-to-end scenario: permanent, home ward "Alder",
preferred shift "day", contracted 37.5 hours per week, mandatory training
complete, wellbeing score 80. -/
def candidateA : Staff := ⟨1, "permanent", some "Alder", some "day", some (75 / 2), true, 80⟩

/-- A candidate who prefers night shifts: agency tier, no home ward,
training complete, neutral wellbeing (used to refute claim C4). -/
def nightPrefStaff : Staff := ⟨2, "agency", none, some "night", none, true, 0⟩

/-- A shift starting at 05:00 and ending 17:00 the same day: the §4.2
classifier calls it "night" (start hour < 6), but the scoring label calls it
"day" (start hour < 18). -/
def earlyShift : Shift := ⟨some 0, some (5, 0), some (17, 0), none⟩

/-- A 12-hour candidate shift starting 07:30 on day 0 (used to refute
claim C5). -/
def candidateShift0 : Shift := ⟨some 0, some (7, 30), some (19, 30), none⟩

/-- Three commitments on the candidate date itself, all starting after the
07:30 candidate start, of 23, 22 and 20 hours (65 hours in total): they lie
in the claimed calendar-date window but after the end of the code instant
window. -/
def lateCommitments : List Shift :=
  [⟨some 0, some (8, 0), some (7, 0), none⟩,
   ⟨some 0, some (9, 0), some (7, 0), none⟩,
   ⟨some 0, some (10, 0), some (6, 0), none⟩]

/-- A 12-hour candidate shift starting 07:30 on day 10 (witness input for
the amended claim C5). -/
def candidateShift10 : Shift := ⟨some (10 * 1440), some (7, 30), some (19, 30), none⟩

/-- Three prior commitments of 12, 12 and 16 hours (40 in total) on days 9,
8 and 7, all starting inside the instant window of `candidateShift10`. -/
def priorCommitments : List Shift :=
  [⟨some (9 * 1440), some (7, 0), some (19, 0), none⟩,
   ⟨some (8 * 1440), some (7, 0), some (19, 0), none⟩,
   ⟨some (7 * 1440), some (0, 0), some (16, 0), none⟩]

/-- Six commitments covering exactly the calendar days 94–99, the six days
immediately preceding day 100 (witness input for claim C6). -/
def sixPriorDays : List Shift :=
  [⟨some (94 * 1440), some (9, 0), some (17, 0), none⟩,
   ⟨some (95 * 1440), some (9, 0), some (17, 0), none⟩,
   ⟨some (96 * 1440), some (9, 0), some (17, 0), none⟩,
   ⟨some (97 * 1440), some (9, 0), some (17, 0), none⟩,
   ⟨some (98 * 1440), some (9, 0), some (17, 0), none⟩,
   ⟨some (99 * 1440), some (9, 0), some (17, 0), none⟩]

/-- Five commitments covering exactly the calendar days 95–99, the five days
immediately preceding day 100 (witness input for claim C6). -/
def fivePriorDays : List Shift :=
  [⟨some (95 * 1440), some (9, 0), some (17, 0), none⟩,
   ⟨some (96 * 1440), some (9, 0), some (17, 0), none⟩,
   ⟨some (97 * 1440), some (9, 0), some (17, 0), none⟩,
   ⟨some (98 * 1440), some (9, 0), some (17, 0), none⟩,
   ⟨some (99 * 1440), some (9, 0), some (17, 0), none⟩]

/-- A day-0 candidate shift on day 100, 07:30–19:30 (witness input for
claim C6). -/
def candidateShift100 : Shift := ⟨some (100 * 1440), some (7, 30), some (19, 30), none⟩

/-- A day shift 08:00–20:00 on day 0 (witness input for claims C8/C10). -/
def dayShift0 : Shift := ⟨some 0, some (8, 0), some (20, 0), none⟩

/-- A night shift 20:00–08:00 on day 0, starting exactly when `dayShift0`
ends (witness input for claims C8/C10). -/
def followOnNight0 : Shift := ⟨some 0, some (20, 0), some (8, 0), none⟩

/-- A shift with an unparseable date but well-formed times (witness input
for claim C9). -/
def undatedShift : Shift := ⟨none, some (8, 0), some (20, 0), none⟩

-- Probes: Int division in this toolchain is floor division for a positive
-- divisor, as the day-number model requires, and the basic evaluations of
-- the embedding behave as the source does on known inputs.
example : ((-7 : Int) / 1440) = -1 := by decide
example : ((-7 : Int) % 1440) = 1433 := by decide
example : getShiftDurationHours ⟨some 0, some (19, 30), some (8, 0), none⟩ = 25 / 2 := by
  norm_num [getShiftDurationHours, getShiftRange, toDateTime, dayNumber]
example : isNightShift ⟨some 0, some (19, 30), some (8, 0), none⟩ = true := by decide
example : getShiftType ⟨some 0, some (7, 30), some (19, 30), none⟩ = "day" := by decide
example : getShiftType ⟨some 0, some (5, 0), some (17, 0), none⟩ = "night" := by decide

/-- C1 counterexample: calling the ranking entry point with an empty
candidate pool does not return empty lists — it raises the error
"No staff found for organisation", so the claim that the call returns
normally with both lists empty is false. -/
theorem c1_empty_pool_counterexample :
    getBestStaffForShift (some alderShift) [] [] [] none
      = Except.error "No staff found for organisation" := rfl

/-- C1 (amended): for every loaded shift, weekly maps and limit option, the
ranking entry point `getBestStaffForShift` with an empty candidate pool
raises (returns `Except.error "No staff found for organisation"`, embedding
`throw new Error`); it never returns a pair of empty lists. -/
theorem c1_empty_pool_raises (shift : Shift)
    (weeklyHoursMap : List (Nat × ℚ)) (weeklyDaysMap : List (Nat × Nat))
    (limitOption : Option Nat) :
    getBestStaffForShift (some shift) [] weeklyHoursMap weeklyDaysMap limitOption
      = Except.error "No staff found for organisation" := rfl

/-- C2: in the §8 end-to-end scenario (07:30–19:30 shift on ward "Alder";
permanent candidate with home ward "Alder", preference "day", 0 committed
hours, contracted 37.5 h/week, wellbeing 80, training complete), the
evaluation returns eligible and a score of exactly 125, decomposed as
+40 (tier) +30 (ward) +15 (preference) +35 (fairness, utilisation < 0.5)
+5 (wellbeing). -/
theorem c2_alder_scenario :
    scoreStaffForShift candidateA alderShift [] [] = { score := 125, eligible := true }
    ∧ tierScore candidateA = 40
    ∧ wardScore candidateA alderShift = 30
    ∧ prefScore candidateA alderShift = 15
    ∧ fairnessScore candidateA 0 (estimateShiftHours alderShift) = 35
    ∧ wellbeingAdjust candidateA = 5
    ∧ (0 + estimateShiftHours alderShift) / (75 / 2) < 1 / 2 := by
  refine ⟨?_, by decide, by decide, by decide, ?_, by decide, ?_⟩
  · norm_num [scoreStaffForShift, candidateA, alderShift, tierScore, wardScore, prefScore,
      fairnessScore, wellbeingAdjust, estimateShiftHours, shiftLabel, toLower]
    decide
  · norm_num [fairnessScore, candidateA, alderShift, estimateShiftHours]
  · norm_num [estimateShiftHours, alderShift]

/-- C3 counterexample: a shift with a valid date and both times-of-day
missing is given a duration of 24 hours by `getShiftDurationHours` (the end
falls back to the date value itself and is then pushed one day forward), not
the claimed 12-hour default. -/
theorem c3_missing_times_counterexample :
    getShiftDurationHours ⟨some 0, none, none, none⟩ = 24 ∧ (24 : ℚ) ≠ 12 := by
  constructor
  · norm_num [getShiftDurationHours, getShiftRange, toDateTime, dayNumber]
  · norm_num

/-- C3 (amended): both duration computations return normally for missing
times, but only `estimateShiftHours` uses the 12-hour default: for every
shift with a missing (absent) start or end time it returns exactly 12, while
`getShiftDurationHours` instead falls back to the time-of-day carried by the
date value, so a shift with a valid date and both times missing gets 24
hours. -/
theorem c3_missing_time_defaults (s : Shift)
    (h : s.start_time = none ∨ s.end_time = none) :
    estimateShiftHours s = 12
    ∧ ∀ base : Int, getShiftDurationHours ⟨some base, none, none, none⟩ = 24 := by
  constructor
  · rcases h with h | h <;>
      · unfold estimateShiftHours
        rcases hs : s.start_time with _ | ⟨sh, sm⟩ <;>
          rcases he : s.end_time with _ | ⟨eh, em⟩ <;>
          simp_all
  · intro base
    norm_num [getShiftDurationHours, getShiftRange, toDateTime, dayNumber]

/-- C3 witness: a concrete shift with missing start time gets the 12-hour
default from `estimateShiftHours`. -/
theorem c3_missing_time_defaults_witness :
    estimateShiftHours ⟨some 0, none, some (8, 0), none⟩ = 12 :=
  (c3_missing_time_defaults ⟨some 0, none, some (8, 0), none⟩ (Or.inl rfl)).1

/-- C4 counterexample: for a shift running 05:00–17:00 the §4.2 classifier
(`getShiftType`) says "night" (start hour < 6), and the candidate
preference is "night", so the claim demands the +15 match bonus; but the
scoring code labels the shift by start hour ≥ 18 only, calls it "day", and
scores the preference −5 (the candidate total is 10, where the claim
rule would give 30). -/
theorem c4_classifier_counterexample :
    getShiftType earlyShift = "night"
    ∧ toLower (nightPrefStaff.preferred_shift.getD "Day") = "night"
    ∧ prefScore nightPrefStaff earlyShift = -5
    ∧ scoreStaffForShift nightPrefStaff earlyShift [] [] = { score := 10, eligible := true } := by
  refine ⟨by decide, by decide, by decide, ?_⟩
  norm_num [scoreStaffForShift, nightPrefStaff, earlyShift, tierScore, wardScore, prefScore,
    fairnessScore, wellbeingAdjust, estimateShiftHours, shiftLabel, toLower]
  decide

/-- C4 (amended): for every candidate, shift and weekly maps, the score
computed by `scoreStaffForShift` decomposes additively with the shift-type
preference component computed against the simple start-hour label of the
claim (night iff a start time is present with hour ≥ 18, else day) — not
against the §4.2 classifier: "any" adds +10, a preference equal to that
label adds +15, and any other case adds −5. -/
theorem c4_pref_uses_start_hour_label (staff : Staff) (shift : Shift)
    (weeklyHoursMap : List (Nat × ℚ)) (weeklyDaysMap : List (Nat × Nat)) :
    (scoreStaffForShift staff shift weeklyHoursMap weeklyDaysMap).score
      = tierScore staff + wardScore staff shift
        + claimPrefPoints staff.preferred_shift (claimPrefLabel shift)
        + fairnessScore staff ((weeklyHoursMap.lookup staff.id).getD 0) (estimateShiftHours shift)
        + wellbeingAdjust staff := rfl

/-- C7: for every shift with a valid date and valid canonical times whose end
time-of-day is textually at most its start time-of-day (for zero-padded
"HH:MM" strings the textual order is the order of `h * 60 + m`), the
normalised end instant is the end time-of-day advanced by exactly one
calendar day — its day number is the shift day plus one — and the
resulting interval satisfies end > start. -/
theorem c7_textual_le_crosses_midnight (base : Int) (w : Option String)
    (sh sm eh em : Nat) (hsh : sh < 24) (hsm : sm < 60) (heh : eh < 24) (hem : em < 60)
    (hle : (eh : Int) * 60 + em ≤ (sh : Int) * 60 + sm) :
    getShiftRange ⟨some base, some (sh, sm), some (eh, em), w⟩
      = (some (dayNumber base * 1440 + ((sh : Int) * 60 + sm)),
         some (dayNumber base * 1440 + ((eh : Int) * 60 + em) + 1440))
    ∧ dayNumber (dayNumber base * 1440 + ((eh : Int) * 60 + em) + 1440) = dayNumber base + 1
    ∧ dayNumber base * 1440 + ((sh : Int) * 60 + sm)
        < dayNumber base * 1440 + ((eh : Int) * 60 + em) + 1440 := by
  refine ⟨?_, ?_, by omega⟩
  · simp only [getShiftRange, toDateTime]
    rw [if_pos (by omega)]
  · unfold dayNumber
    omega

/-- C7 witness: the 19:30–08:00 night shift on day 0 normalises to the
range from minute 1170 to minute 1920 of the epoch, whose end lies on day 1. -/
theorem c7_textual_le_crosses_midnight_witness :
    getShiftRange ⟨some 0, some (19, 30), some (8, 0), none⟩ = (some 1170, some 1920)
    ∧ dayNumber 1920 = dayNumber 0 + 1
    ∧ (1170 : Int) < 1920 := by
  have h := c7_textual_le_crosses_midnight 0 none 19 30 8 0 (by decide) (by decide)
    (by decide) (by decide) (by decide)
  exact ⟨h.1, h.2.1, h.2.2⟩

/-- Reduction of `shiftsOverlap` on shifts whose normalised ranges are
known. -/
theorem shiftsOverlap_eq (a b : Shift) (sa ea sb eb : Int)
    (ha : getShiftRange a = (some sa, some ea))
    (hb : getShiftRange b = (some sb, some eb)) :
    shiftsOverlap a b
      = if ea ≤ sa ∨ eb ≤ sb then false else decide (sa < eb ∧ sb < ea) := by
  unfold shiftsOverlap
  rw [ha, hb]

/-- C8: the overlap test is symmetric for every pair of shifts, and for
shifts with valid normalised ranges it returns false whenever either range
has zero or negative length, and otherwise returns true exactly when each
range starts before the other ends. -/
theorem c8_overlap_symmetric_and_characterised :
    (∀ a b : Shift, shiftsOverlap a b = shiftsOverlap b a)
    ∧ ∀ (a b : Shift) (sa ea sb eb : Int),
        getShiftRange a = (some sa, some ea) → getShiftRange b = (some sb, some eb) →
        ((ea ≤ sa ∨ eb ≤ sb) → shiftsOverlap a b = false)
        ∧ (sa < ea → sb < eb → (shiftsOverlap a b = true ↔ (sa < eb ∧ sb < ea))) := by
  constructor
  · intro a b
    unfold shiftsOverlap
    rcases ha : getShiftRange a with ⟨a1, a2⟩
    rcases hb : getShiftRange b with ⟨b1, b2⟩
    rcases a1 with _ | sa <;> rcases a2 with _ | ea <;>
      rcases b1 with _ | sb <;> rcases b2 with _ | eb <;> simp
    by_cases h1 : ea ≤ sa <;> by_cases h2 : eb ≤ sb <;>
      by_cases h3 : sa < eb <;> by_cases h4 : sb < ea <;>
        simp [h1, h2, h3, h4]
  · intro a b sa ea sb eb ha hb
    have he := shiftsOverlap_eq a b sa ea sb eb ha hb
    constructor
    · intro h
      rw [he, if_pos h]
    · intro hpa hpb
      rw [he, if_neg (by omega)]
      simp

/-- C8 witness: a concrete day shift and the night shift starting exactly
when it ends are symmetric under the overlap test, and (both ranges being
valid and positive) they overlap exactly per the strict-inequality rule —
here they do not, since 1200 < 1200 fails. -/
theorem c8_overlap_witness :
    shiftsOverlap dayShift0 followOnNight0 = shiftsOverlap followOnNight0 dayShift0
    ∧ (shiftsOverlap dayShift0 followOnNight0 = true
        ↔ ((480 : Int) < 1920 ∧ (1200 : Int) < 1200)) := by
  have h := c8_overlap_symmetric_and_characterised
  exact ⟨h.1 dayShift0 followOnNight0,
    (h.2 dayShift0 followOnNight0 480 1200 1200 1920 (by decide) (by decide)).2
      (by decide) (by decide)⟩

/-- C9: for every shift whose date is missing or unparseable, each
constraint predicate — weekly hours, rest period, consecutive days and night
cap — returns ok and skips its check, and double-booking also passes because
overlap against the unparseable range is always false, regardless of the
candidate commitments. -/
theorem c9_unparseable_date_skips_checks (s : Shift) (A : List Shift)
    (softThreshold hardCap minRestHours : ℚ) (maxDays maxNights windowDays : Nat)
    (h : s.shift_date = none) :
    (checkWeeklyHoursLimit A s softThreshold hardCap).ok = true
    ∧ (checkRestPeriod A s minRestHours).ok = true
    ∧ (checkConsecutiveDaysLimit A s maxDays).ok = true
    ∧ (checkNightShiftLimit A s maxNights windowDays).ok = true
    ∧ (checkDoubleBooking A s).ok = true
    ∧ ∀ a ∈ A, shiftsOverlap a s = false := by
  have hr : getShiftRange s = (none, none) := by
    unfold getShiftRange toDateTime
    rw [h]
  have hr1 : (getShiftRange s).1 = none := by rw [hr]
  have hov : ∀ a : Shift, shiftsOverlap a s = false := by
    intro a
    unfold shiftsOverlap
    rw [hr]
    rcases ha : getShiftRange a with ⟨a1, a2⟩
    rcases a1 <;> rcases a2 <;> simp
  refine ⟨?_, ?_, ?_, ?_, ?_, fun a _ => hov a⟩
  · simp [checkWeeklyHoursLimit, hr1]
  · simp [checkRestPeriod, hr1]
  · simp [checkConsecutiveDaysLimit, hr1]
  · simp [checkNightShiftLimit, hr1]
  · simp [checkDoubleBooking, hov]

/-- C9 witness: a shift with a missing date but well-formed times passes all
five predicates against a nonempty commitment list. -/
theorem c9_unparseable_date_skips_checks_witness :
    (checkWeeklyHoursLimit [dayShift0] undatedShift 48 72).ok = true
    ∧ (checkRestPeriod [dayShift0] undatedShift 11).ok = true
    ∧ (checkConsecutiveDaysLimit [dayShift0] undatedShift 6).ok = true
    ∧ (checkNightShiftLimit [dayShift0] undatedShift 4 14).ok = true
    ∧ (checkDoubleBooking [dayShift0] undatedShift).ok = true
    ∧ ∀ a ∈ [dayShift0], shiftsOverlap a undatedShift = false :=
  c9_unparseable_date_skips_checks undatedShift [dayShift0] 48 72 11 6 4 14 rfl

/-- Reduction of `checkRestPeriod` on a single commitment with a known
positive-length range, when the new shift start is known. -/
theorem checkRestPeriod_single (a newShift : Shift) (minRestHours : ℚ)
    (sa ea sn : Int) (ha : getShiftRange a = (some sa, some ea))
    (hn1 : (getShiftRange newShift).1 = some sn) (hposA : sa < ea) :
    checkRestPeriod [a] newShift minRestHours
      = if 0 < ((sn - ea : Int) : ℚ) / 60 ∧ ((sn - ea : Int) : ℚ) / 60 < minRestHours
        then { ok := false } else { ok := true } := by
  unfold checkRestPeriod
  rw [hn1]
  simp only [List.any_cons, List.any_nil, ha, Bool.or_false]
  rw [if_neg (not_le.mpr hposA)]
  by_cases hc : 0 < ((sn - ea : Int) : ℚ) / 60 ∧ ((sn - ea : Int) : ℚ) / 60 < minRestHours
  · rw [if_pos hc, if_pos (by simpa using hc)]
  · rw [if_neg hc, if_neg (by simpa using hc)]

/-- C10: for every commitment whose valid positive-length range ends exactly
when the valid positive-length candidate shift starts, both the
double-booking and rest-period checks pass (the half-open intervals do not
overlap and the zero gap does not fire the rest rule); in general, for a
single such commitment the rest-period check fails exactly when the gap is
strictly positive and below the threshold. -/
theorem c10_zero_gap_allowed (a newShift : Shift) (minRestHours : ℚ)
    (sa ea sn en : Int)
    (ha : getShiftRange a = (some sa, some ea))
    (hn : getShiftRange newShift = (some sn, some en))
    (hposA : sa < ea) (hposN : sn < en) :
    (ea = sn →
      shiftsOverlap a newShift = false
      ∧ (checkDoubleBooking [a] newShift).ok = true
      ∧ (checkRestPeriod [a] newShift minRestHours).ok = true)
    ∧ ((checkRestPeriod [a] newShift minRestHours).ok = false
        ↔ (0 < sn - ea ∧ ((sn - ea : Int) : ℚ) / 60 < minRestHours)) := by
  have hn1 : (getShiftRange newShift).1 = some sn := by rw [hn]
  have hrest := checkRestPeriod_single a newShift minRestHours sa ea sn ha hn1 hposA
  have hgap : (0 : ℚ) < ((sn - ea : Int) : ℚ) / 60 ↔ 0 < sn - ea := by
    constructor
    · intro hq
      by_contra hneg
      push_neg at hneg
      have : ((sn - ea : Int) : ℚ) ≤ 0 := by exact_mod_cast hneg
      nlinarith
    · intro hi
      have : (0 : ℚ) < ((sn - ea : Int) : ℚ) := by exact_mod_cast hi
      positivity
  constructor
  · intro heq
    have hov : shiftsOverlap a newShift = false := by
      rw [shiftsOverlap_eq a newShift sa ea sn en ha hn]
      rw [if_neg (by omega)]
      simp only [decide_eq_false_iff_not]
      omega
    refine ⟨hov, ?_, ?_⟩
    · simp [checkDoubleBooking, hov]
    · rw [hrest, if_neg ?_]
      rintro ⟨hq, -⟩
      rw [hgap] at hq
      omega
  · rw [hrest]
    by_cases hc : 0 < ((sn - ea : Int) : ℚ) / 60 ∧ ((sn - ea : Int) : ℚ) / 60 < minRestHours
    · rw [if_pos hc]
      simp only [true_iff]
      exact ⟨hgap.mp hc.1, hc.2⟩
    · rw [if_neg hc]
      simp only [Bool.true_eq_false, false_iff]
      rintro ⟨hi, hlt⟩
      exact hc ⟨hgap.mpr hi, hlt⟩

/-- C10 witness: the 08:00–20:00 day shift followed back-to-back by the
20:00–08:00 night shift does not double-book and passes the 11-hour rest
check. -/
theorem c10_zero_gap_allowed_witness :
    shiftsOverlap dayShift0 followOnNight0 = false
    ∧ (checkDoubleBooking [dayShift0] followOnNight0).ok = true
    ∧ (checkRestPeriod [dayShift0] followOnNight0 11).ok = true :=
  (c10_zero_gap_allowed dayShift0 followOnNight0 11 480 1200 1200 1920
    (by decide) (by decide) (by decide) (by decide)).1 rfl

/-- The accumulator form of `calculateTotalHoursInWindow`: folding over the
assignments from any accumulator adds the summed durations of the
assignments whose start lies in the window. -/
theorem foldl_hours_eq (ws we : Int) (A : List Shift) :
    ∀ acc : ℚ,
      A.foldl (fun acc a =>
        match (getShiftRange a).1 with
        | some s =>
          if ws ≤ s ∧ s ≤ we then acc + getShiftDurationHours a else acc
        | none => acc) acc
      = acc + ((A.filter (fun a =>
          match (getShiftRange a).1 with
          | some s => decide (ws ≤ s ∧ s ≤ we)
          | none => false)).map getShiftDurationHours).sum := by
  induction A with
  | nil => intro acc; simp
  | cons a t ih =>
    intro acc
    simp only [List.foldl_cons]
    rcases hs : (getShiftRange a).1 with _ | s
    · rw [List.filter_cons_of_neg (by simp [hs])]
      simp only [hs]
      rw [ih]
    · by_cases hw : ws ≤ s ∧ s ≤ we
      · rw [List.filter_cons_of_pos (by simp [hs, hw])]
        simp only [hs]
        rw [if_pos hw, ih]
        simp only [List.map_cons, List.sum_cons]
        ring
      · rw [List.filter_cons_of_neg (by simp [hs, hw])]
        simp only [hs]
        rw [if_neg hw, ih]

/-- `calculateTotalHoursInWindow` equals the summed durations of the
assignments whose start lies in the inclusive window. -/
theorem calculateTotalHoursInWindow_eq_sum (A : List Shift) (ws we : Int) :
    calculateTotalHoursInWindow A ws we
      = ((A.filter (fun a =>
          match (getShiftRange a).1 with
          | some s => decide (ws ≤ s ∧ s ≤ we)
          | none => false)).map getShiftDurationHours).sum := by
  unfold calculateTotalHoursInWindow
  rw [foldl_hours_eq ws we A 0]
  ring

/-- C5 counterexample: for a 07:30–19:30 candidate shift on day 0 with
three same-date commitments of 65 hours in total all starting after 07:30,
the total over the claimed calendar-date window is 77 hours, above the
72-hour hard cap — yet the code check passes with no warning, because its
instant window ends at the 07:30 start and excludes all three commitments. -/
theorem c5_date_window_counterexample :
    claimWeeklyTotalDateWindow lateCommitments candidateShift0 = 77
    ∧ (77 : ℚ) > 72
    ∧ (checkWeeklyHoursLimit lateCommitments candidateShift0 48 72).ok = true
    ∧ (checkWeeklyHoursLimit lateCommitments candidateShift0 48 72).legalWarning = false := by
  refine ⟨?_, by norm_num, ?_, ?_⟩
  · norm_num [claimWeeklyTotalDateWindow, lateCommitments, candidateShift0,
      getShiftDurationHours, getShiftRange, toDateTime, dayNumber, toDateKey,
      List.filter]
  · norm_num [checkWeeklyHoursLimit, calculateTotalHoursInWindow, lateCommitments,
      candidateShift0, getShiftDurationHours, getShiftRange, toDateTime, dayNumber]
  · norm_num [checkWeeklyHoursLimit, calculateTotalHoursInWindow, lateCommitments,
      candidateShift0, getShiftDurationHours, getShiftRange, toDateTime, dayNumber]

/-- C5 (amended): for every candidate shift with a valid start, letting
total be the summed hours of the commitments whose start instant lies in the
inclusive instant window from six calendar days before the candidate start
(same time-of-day) up to that start, plus the candidate shift own
duration: the weekly-hours check fails exactly when total exceeds the hard
cap, and when it passes it attaches the non-blocking legal warning exactly
when total exceeds the soft threshold; the reported total is that same sum.
Commitments starting later on the start date, or earlier in the day six days
before, are not counted. -/
theorem c5_weekly_hours_instant_window (A : List Shift) (newShift : Shift)
    (softThreshold hardCap : ℚ) (newStart : Int)
    (h : (getShiftRange newShift).1 = some newStart) :
    ((checkWeeklyHoursLimit A newShift softThreshold hardCap).ok
      = decide (claimWeeklyTotalInstantWindow A newShift newStart ≤ hardCap))
    ∧ ((checkWeeklyHoursLimit A newShift softThreshold hardCap).legalWarning
      = (decide (softThreshold < claimWeeklyTotalInstantWindow A newShift newStart)
          && decide (claimWeeklyTotalInstantWindow A newShift newStart ≤ hardCap)))
    ∧ (checkWeeklyHoursLimit A newShift softThreshold hardCap).totalHoursWithNew
        = claimWeeklyTotalInstantWindow A newShift newStart := by
  have htot : calculateTotalHoursInWindow A (newStart - 6 * 1440) newStart
      + getShiftDurationHours newShift
      = claimWeeklyTotalInstantWindow A newShift newStart := by
    unfold claimWeeklyTotalInstantWindow
    rw [calculateTotalHoursInWindow_eq_sum]
  simp only [checkWeeklyHoursLimit, h]
  rw [htot]
  split_ifs with h1 h2
  · refine ⟨?_, ?_, rfl⟩
    · rw [decide_eq_false (not_le.mpr h1)]
    · rw [decide_eq_false (not_le.mpr h1), Bool.and_false]
  · refine ⟨?_, ?_, rfl⟩
    · rw [decide_eq_true (not_lt.mp h1)]
    · rw [decide_eq_true (not_lt.mp h1), decide_eq_true h2, Bool.true_and]
  · refine ⟨?_, ?_, rfl⟩
    · rw [decide_eq_true (not_lt.mp h1)]
    · rw [decide_eq_false h2, Bool.false_and]

/-- C5 witness: for the 40-prior-hours scenario (commitments of 12 + 12 + 16
hours on the three days before a 12-hour candidate shift on day 10, all
inside the instant window), the amended characterisation applies; the total
is 52, so the check passes and carries the legal warning. -/
theorem c5_weekly_hours_instant_window_witness :
    ((checkWeeklyHoursLimit priorCommitments candidateShift10 48 72).ok
      = decide (claimWeeklyTotalInstantWindow priorCommitments candidateShift10 14850 ≤ 72))
    ∧ ((checkWeeklyHoursLimit priorCommitments candidateShift10 48 72).legalWarning
      = (decide ((48 : ℚ) < claimWeeklyTotalInstantWindow priorCommitments candidateShift10 14850)
          && decide (claimWeeklyTotalInstantWindow priorCommitments candidateShift10 14850 ≤ 72)))
    ∧ (checkWeeklyHoursLimit priorCommitments candidateShift10 48 72).totalHoursWithNew
        = claimWeeklyTotalInstantWindow priorCommitments candidateShift10 14850 :=
  c5_weekly_hours_instant_window priorCommitments candidateShift10 48 72 14850 (by decide)

/-- Characterisation of the backward walk: if the days `d, d-1, …, d-(n-1)`
are all present in the list, day `d-n` is absent, and the fuel exceeds `n`,
the walk counts exactly `n`. -/
theorem streakAux_spec (l : List Int) :
    ∀ (fuel : Nat) (d : Int) (n : Nat),
      (∀ k : Nat, k < n → (d - k) ∈ l) → ((d - n) ∉ l) → n < fuel →
      streakAux l d fuel = n := by
  intro fuel
  induction fuel with
  | zero =>
    intro d n _ _ hlt
    omega
  | succ f ih =>
    intro d n hmem hmiss hlt
    cases n with
    | zero =>
      have hd : d ∉ l := by simpa using hmiss
      simp [streakAux, hd]
    | succ m =>
      have hd : d ∈ l := by simpa using hmem 0 (Nat.succ_pos m)
      simp only [streakAux, if_pos hd]
      have hrec : streakAux l (d - 1) f = m := by
        apply ih
        · intro k hk
          have hx := hmem (k + 1) (by omega)
          have heq : d - (↑(k + 1) : Int) = d - 1 - k := by push_cast; ring
          rwa [heq] at hx
        · have heq : d - (↑(m + 1) : Int) = d - 1 - m := by push_cast; ring
          rwa [heq] at hmiss
        · omega
      omega

/-- A duplicate-free list contained in another list is no longer than it. -/
theorem length_le_of_nodup_subset (xs l : List Int) (hnd : xs.Nodup)
    (hsub : ∀ x ∈ xs, x ∈ l) : xs.length ≤ l.length := by
  classical
  calc xs.length = xs.toFinset.card := by rw [List.toFinset_card_of_nodup hnd]
  _ ≤ l.toFinset.card := by
      apply Finset.card_le_card
      intro x hx
      rw [List.mem_toFinset] at hx ⊢
      exact hsub x hx
  _ ≤ l.length := l.toFinset_card_le

/-- Reduction of `checkConsecutiveDaysLimit` for a candidate whose
commitments cover exactly the `n` calendar days immediately preceding the
candidate day: the walk counts `n + 1` and the check fails exactly when
`n + 1` exceeds the maximum. -/
theorem checkConsecutiveDaysLimit_of_cover (A : List Shift) (newShift : Shift)
    (d : Int) (n : Nat) (h : (getShiftRange newShift).1 = some d)
    (hcov : ∀ k : Int, k ∈ workedDayKeys A
      ↔ (toDateKey d - n ≤ k ∧ k ≤ toDateKey d - 1))
    (m : Nat) :
    checkConsecutiveDaysLimit A newShift m
      = if n + 1 > m then { ok := false, streak := n + 1 }
        else { ok := true, streak := n + 1 } := by
  have hlen : n ≤ (workedDayKeys A).length := by
    have hxs : ((List.range n).map (fun i : Nat => toDateKey d - n + i)).length = n := by
      simp
    calc n = ((List.range n).map (fun i : Nat => toDateKey d - n + i)).length := hxs.symm
    _ ≤ (workedDayKeys A).length := by
        apply length_le_of_nodup_subset
        · refine List.Nodup.map ?_ (List.nodup_range n)
          intro i j hij
          simp only [add_right_inj] at hij
          exact_mod_cast hij
        · intro x hx
          simp only [List.mem_map, List.mem_range] at hx
          obtain ⟨i, hi, rfl⟩ := hx
          exact (hcov _).mpr ⟨by omega, by omega⟩
  have hmemL : ∀ k : Int, k ∈ workedDayKeys A ++ [toDateKey d]
      ↔ ((toDateKey d - n ≤ k ∧ k ≤ toDateKey d - 1) ∨ k = toDateKey d) := by
    intro k
    simp [List.mem_append, hcov k]
  have hstreak : streakAux (workedDayKeys A ++ [toDateKey d]) (toDateKey d)
      ((workedDayKeys A ++ [toDateKey d]).length + 1) = n + 1 := by
    apply streakAux_spec
    · intro k hk
      rw [hmemL]
      rcases Nat.eq_zero_or_pos k with rfl | hkpos
      · right
        simp
      · left
        constructor <;> omega
    · rw [hmemL]
      omega
    · have hl : (workedDayKeys A ++ [toDateKey d]).length
          = (workedDayKeys A).length + 1 := by simp
      omega
  simp only [checkConsecutiveDaysLimit, h]
  rw [hstreak]

/-- C6: for every candidate shift with a valid start whose commitments cover
exactly the 6 distinct calendar days immediately preceding its day, the
consecutive-days check at max 6 fails with a reported streak of 7; with only
the 5 immediately preceding days covered it passes with streak 6; and in
general (for any commitments and any max) the check passes exactly when the
backward-walk streak does not exceed the max. -/
theorem c6_consecutive_days_boundary (A6 A5 : List Shift) (newShift : Shift)
    (d : Int) (h : (getShiftRange newShift).1 = some d)
    (h6 : ∀ k : Int, k ∈ workedDayKeys A6
      ↔ (toDateKey d - 6 ≤ k ∧ k ≤ toDateKey d - 1))
    (h5 : ∀ k : Int, k ∈ workedDayKeys A5
      ↔ (toDateKey d - 5 ≤ k ∧ k ≤ toDateKey d - 1)) :
    (checkConsecutiveDaysLimit A6 newShift 6).ok = false
    ∧ (checkConsecutiveDaysLimit A6 newShift 6).streak = 7
    ∧ (checkConsecutiveDaysLimit A5 newShift 6).ok = true
    ∧ (checkConsecutiveDaysLimit A5 newShift 6).streak = 6
    ∧ ∀ (B : List Shift) (m : Nat),
        ((checkConsecutiveDaysLimit B newShift m).ok = true
          ↔ (checkConsecutiveDaysLimit B newShift m).streak ≤ m) := by
  have e6 := checkConsecutiveDaysLimit_of_cover A6 newShift d 6 h (by exact_mod_cast h6) 6
  have e5 := checkConsecutiveDaysLimit_of_cover A5 newShift d 5 h (by exact_mod_cast h5) 6
  rw [if_pos (by omega)] at e6
  rw [if_neg (by omega)] at e5
  refine ⟨by rw [e6], by rw [e6], by rw [e5], by rw [e5], ?_⟩
  intro B m
  simp only [checkConsecutiveDaysLimit, h]
  by_cases hgt : streakAux (workedDayKeys B ++ [toDateKey d]) (toDateKey d)
      ((workedDayKeys B ++ [toDateKey d]).length + 1) > m
  · rw [if_pos hgt]
    simp only [Bool.false_eq_true, false_iff]
    omega
  · rw [if_neg hgt]
    simp only [true_iff]
    omega

/-- C6 witness: six commitments on days 94–99 before a day-100 candidate
shift give streak 7 and fail at max 6; five commitments on days 95–99 give
streak 6 and pass. -/
theorem c6_consecutive_days_boundary_witness :
    (checkConsecutiveDaysLimit sixPriorDays candidateShift100 6).ok = false
    ∧ (checkConsecutiveDaysLimit sixPriorDays candidateShift100 6).streak = 7
    ∧ (checkConsecutiveDaysLimit fivePriorDays candidateShift100 6).ok = true
    ∧ (checkConsecutiveDaysLimit fivePriorDays candidateShift100 6).streak = 6
    ∧ ∀ (B : List Shift) (m : Nat),
        ((checkConsecutiveDaysLimit B candidateShift100 m).ok = true
          ↔ (checkConsecutiveDaysLimit B candidateShift100 m).streak ≤ m) := by
  apply c6_consecutive_days_boundary sixPriorDays fivePriorDays candidateShift100 144450
  · decide
  · intro k
    have hl : workedDayKeys sixPriorDays = [94, 95, 96, 97, 98, 99] := by decide
    have hd : toDateKey (144450 : Int) = 100 := by decide
    rw [hl, hd]
    simp only [List.mem_cons, List.not_mem_nil, or_false]
    omega
  · intro k
    have hl : workedDayKeys fivePriorDays = [95, 96, 97, 98, 99] := by decide
    have hd : toDateKey (144450 : Int) = 100 := by decide
    rw [hl, hd]
    simp only [List.mem_cons, List.not_mem_nil, or_false]
    omega
